import Mathlib

/-!
Shallow embedding of `src/src/layers/mod.rs` of proto-neural-zkp:
the layer trait object, the serializable layer/network records, the
record-to-layer factory, and the sequential forward-pass driver of
`NeuralNetwork`. Concrete layer modules (`conv.rs`, `maxpool.rs`,
`fully_connected.rs`, `relu.rs`, `flatten.rs`, `normalize.rs`) are not part
of the sources; where one of their items is needed it is modelled from the
specification and marked as such in its doc comment.
-/

set_option autoImplicit false

namespace ProtoNeuralZkp

/-- Scalar entries of tensors. The source stores `f32` values, but every
claim here only constructs, clones and compares tensors — no floating-point
arithmetic is ever performed — so scalars are modelled by an exact numeric
type on which equality is decidable. -/
abbrev Scalar := Int

/-- A dynamically ranked tensor, `ndarray::ArrayD<f32>`: a shape together
with flat data. The driver in `mod.rs` treats these values opaquely (it only
threads them through the layers), so no further structure is needed. -/
structure TensorD where
  shape : List Nat
  data : List Scalar
  deriving DecidableEq

/-- A rank-1 tensor, `ArcArray<f32, Ix1>` (the `Arc` sharing is a memory
optimisation with no effect on the value). -/
abbrev Tensor1 := List Scalar

/-- A rank-2 tensor, `ArcArray<f32, Ix2>`. -/
abbrev Tensor2 := List (List Scalar)

/-- A rank-3 tensor, `ArcArray<f32, Ix3>`. -/
abbrev Tensor3 := List (List (List Scalar))

/-- The `enum Layers` of `mod.rs` (line 47): bare variant tags carrying no
parameters, in source order. -/
inductive Layers where
  | convolution
  | maxPool
  | relu
  | flatten
  | fullyConnected
  | normalize
  deriving DecidableEq

/-- The `enum LayerJson` of `mod.rs` (line 59): the serializable per-layer
record, a tagged union whose variants carry the reconstruction payload —
a rank-3 kernel for `Convolution`, an integer window for `MaxPool`, rank-2
weights and rank-1 biases for `FullyConnected`, and nothing for `Relu`,
`Flatten` and `Normalize`. -/
inductive LayerJson where
  | convolution (kernel : Tensor3)
  | maxPool (window : Nat)
  | fullyConnected (weights : Tensor2) (biases : Tensor1)
  | relu
  | flatten
  | normalize
  deriving DecidableEq

/-- A boxed `dyn Layer` trait object (`pub trait Layer: Into<LayerJson>`,
`mod.rs` line 13). The embedding keeps the capabilities the claims observe:
the `apply` method (a pure tensor transformation) and the `Into<LayerJson>`
conversion required by the trait bound. The remaining introspection methods
(`input_shape`, `output_shape`, `name`, `num_params`, `num_muls`) are
implemented in the concrete-layer files absent from the sources and are not
mentioned by any claim. -/
structure Layer where
  apply : TensorD → TensorD
  intoJson : LayerJson

/-- Modelled from the spec: the numeric kernels of the six concrete layer
variants live in the layer modules that are not under the sources; spec
sections 1 and 4.1 treat each as an opaque pure implementation of the
`apply` contract, parameterized by the layer's owned data. A value of this
structure supplies those six external implementations. -/
structure LayerImpls where
  convApply : Tensor3 → TensorD → TensorD
  maxPoolApply : Nat → TensorD → TensorD
  fcApply : Tensor2 → Tensor1 → TensorD → TensorD
  reluApply : TensorD → TensorD
  flattenApply : TensorD → TensorD
  normalizeApply : TensorD → TensorD

/-- `conv::Convolution::new(kernel)` boxed as a layer. The constructor is in
the missing `conv.rs`; modelled from the spec (section 3: a Convolution owns
a 3-D kernel tensor). Its `Into<LayerJson>` conversion IS in the sources
(`mod.rs` line 76): the record is `LayerJson::Convolution` carrying a clone
of the owned kernel. -/
def Convolution.new (impls : LayerImpls) (kernel : Tensor3) : Layer :=
  { apply := impls.convApply kernel, intoJson := .convolution kernel }

/-- Modelled from the spec: `maxpool::MaxPool::new(window)` (missing
`maxpool.rs`; spec section 3: a MaxPool owns a scalar window size, and its
record carries that window). -/
def MaxPool.new (impls : LayerImpls) (window : Nat) : Layer :=
  { apply := impls.maxPoolApply window, intoJson := .maxPool window }

/-- Modelled from the spec: `fully_connected::FullyConnected::new()`
(missing `fully_connected.rs`). The call at `mod.rs` line 98 passes no
arguments, so the layer is default-initialized (spec section 9: the
reconstruction "constructs a fresh, presumably default-initialized layer
instead of using the supplied parameters"); the default weights and biases
are modelled as empty tensors — every theorem drawn from this definition is
independent of that choice of default, depending only on the fact that the
construction receives no parameters. -/
def FullyConnected.new (impls : LayerImpls) : Layer :=
  { apply := impls.fcApply [] [], intoJson := .fullyConnected [] [] }

/-- Modelled from the spec: `relu::Relu::new()` (missing `relu.rs`; the
variant is stateless, its record carries no payload). -/
def Relu.new (impls : LayerImpls) : Layer :=
  { apply := impls.reluApply, intoJson := .relu }

/-- Modelled from the spec: `flatten::Flatten::new()` (missing
`flatten.rs`; stateless). -/
def Flatten.new (impls : LayerImpls) : Layer :=
  { apply := impls.flattenApply, intoJson := .flatten }

/-- Modelled from the spec: `normalize::Normalize::new()` (missing
`normalize.rs`; stateless). -/
def Normalize.new (impls : LayerImpls) : Layer :=
  { apply := impls.normalizeApply, intoJson := .normalize }

/-- `impl TryFrom<LayerJson> for Box<dyn Layer>` (`mod.rs` line 90), the
layer factory. Every match arm wraps its constructed layer in `Ok`. The
`FullyConnected` arm binds the record's `weights` and `biases` but does not
pass them to the constructor — exactly as in the source, where the call is
`FullyConnected::new()` with no arguments. -/
def tryFromLayerJson (impls : LayerImpls) : LayerJson → Except Unit Layer
  | .convolution kernel => .ok (Convolution.new impls kernel)
  | .maxPool window => .ok (MaxPool.new impls window)
  | .fullyConnected _ _ => .ok (FullyConnected.new impls)
  | .flatten => .ok (Flatten.new impls)
  | .relu => .ok (Relu.new impls)
  | .normalize => .ok (Normalize.new impls)

/-- The layer the factory constructs on each record: the `Ok` payload of
`tryFromLayerJson`, arm by arm. -/
def buildLayer (impls : LayerImpls) : LayerJson → Layer
  | .convolution kernel => Convolution.new impls kernel
  | .maxPool window => MaxPool.new impls window
  | .fullyConnected _ _ => FullyConnected.new impls
  | .flatten => Flatten.new impls
  | .relu => Relu.new impls
  | .normalize => Normalize.new impls

/-- `pub struct NeuralNetwork { layers: Vec<Box<dyn Layer>> }` (`mod.rs`
line 139): an ordered, owned sequence of boxed layers. -/
structure NeuralNetwork where
  layers : List Layer

/-- `NeuralNetwork::new()` (`mod.rs` line 144): the empty network. -/
def NeuralNetwork.new : NeuralNetwork :=
  { layers := [] }

/-- `NeuralNetwork::add_layer` (`mod.rs` line 148): `self.layers.push(layer)`,
i.e. the layer is appended at the end of the owned sequence. -/
def NeuralNetwork.addLayer (nn : NeuralNetwork) (layer : Layer) : NeuralNetwork :=
  { layers := nn.layers ++ [layer] }

/-- `impl Default for NeuralNetwork` (`mod.rs` line 168): delegates to
`Self::new()`. -/
def NeuralNetwork.default : NeuralNetwork :=
  NeuralNetwork.new

/-- The `for layer in &self.layers` loop body of `NeuralNetwork::apply`
(`mod.rs` lines 156-160): the working tensor is threaded through each
layer's `apply` in storage order. -/
def forwardLayers : List Layer → TensorD → TensorD
  | [], output => output
  | layer :: rest, output => forwardLayers rest (layer.apply output)

/-- `NeuralNetwork::apply` (`mod.rs` line 152): when `dim == 3` the input is
copied into a working value (`input.view().into_owned()`) and folded through
the layers, and the result is returned in `Some`; otherwise the function
returns `None` without touching the layers. The per-layer `println!` is a
diagnostic side effect outside the returned value; `applyCount` below
instruments the same loop to count layer invocations. -/
def NeuralNetwork.apply (nn : NeuralNetwork) (input : TensorD) (dim : Nat) :
    Option TensorD :=
  if dim = 3 then some (forwardLayers nn.layers input) else none

/-- The loop of `NeuralNetwork::apply` instrumented with an invocation
counter: one count per iteration, i.e. per `layer.apply` call (equivalently,
per `println!` of the source loop). -/
def forwardLayersCount : List Layer → TensorD → Nat → TensorD × Nat
  | [], output, n => (output, n)
  | layer :: rest, output, n => forwardLayersCount rest (layer.apply output) (n + 1)

/-- `NeuralNetwork::apply` instrumented to report, next to its result, how
many layer `apply` invocations the call performs. -/
def NeuralNetwork.applyCount (nn : NeuralNetwork) (input : TensorD) (dim : Nat) :
    Option TensorD × Nat :=
  if dim = 3 then
    let r := forwardLayersCount nn.layers input 0
    (some r.1, r.2)
  else (none, 0)

/-- `pub struct NNJson { layers: Vec<Layers> }` (`mod.rs` line 86): the
persisted network record exactly as declared in the sources — each entry is
a bare `Layers` variant tag with no payload fields. -/
structure NNJson where
  layers : List Layers
  deriving DecidableEq

/-- The variant tag of a layer record. -/
def LayerJson.tag : LayerJson → Layers
  | .convolution _ => .convolution
  | .maxPool _ => .maxPool
  | .fullyConnected _ _ => .fullyConnected
  | .relu => .relu
  | .flatten => .flatten
  | .normalize => .normalize

/-- Modelled from the spec: the `Box<dyn Layer> → Layers` conversion that
`impl From<NeuralNetwork> for NNJson` (`mod.rs` line 110, `l.into()`)
requires has no impl anywhere in the sources; spec section 3 defines the
LayerTag as identifying "a layer's variant without carrying parameters", so
a boxed layer maps to the tag of its record. -/
def Layer.tag (l : Layer) : Layers :=
  l.intoJson.tag

/-- `impl From<NeuralNetwork> for NNJson` (`mod.rs` line 107): each owned
layer is mapped to its record entry, in order. -/
def nnJsonFromNetwork (nn : NeuralNetwork) : NNJson :=
  { layers := nn.layers.map Layer.tag }

/-- Modelled from the spec: the full-data NetworkRecord. The `NNJson` of the
sources stores only tags, and the per-entry conversions its `From`/`TryFrom`
impls invoke exist in the repository only for `LayerJson` (the factory at
`mod.rs` line 90); spec sections 4.4 and 9 fix the persisted record as the
ordered sequence of full LayerRecords. -/
structure NNJsonFull where
  layers : List LayerJson
  deriving DecidableEq

/-- The `.map(|l| l.try_into()).collect::<Result<Vec<_>, _>>()` step of
`impl TryFrom<NNJson> for NeuralNetwork` (`mod.rs` line 115): each entry is
converted through the layer factory left to right, and the first per-entry
error aborts the whole collection. -/
def collectLayers (impls : LayerImpls) : List LayerJson → Except Unit (List Layer)
  | [] => .ok []
  | v :: rest =>
    match tryFromLayerJson impls v with
    | .error e => .error e
    | .ok l =>
      match collectLayers impls rest with
      | .error e => .error e
      | .ok ls => .ok (l :: ls)

/-- `impl TryFrom<NNJson> for NeuralNetwork` (`mod.rs` line 115), over the
full-data record: the fail-fast collection of the per-entry factory results
becomes the layer sequence of the reconstructed network; any per-entry error
(propagated by `?` in the source) fails the whole conversion, so no
partially built network is ever returned. -/
def tryFromNNJson (impls : LayerImpls) (value : NNJsonFull) : Except Unit NeuralNetwork :=
  match collectLayers impls value.layers with
  | .error e => .error e
  | .ok ls => .ok { layers := ls }

/-- A concrete instantiation of the opaque external layer kernels, used to
evaluate the factory on concrete records in closed statements. -/
def idImpls : LayerImpls :=
  { convApply := fun _ t => t
    maxPoolApply := fun _ t => t
    fcApply := fun _ _ t => t
    reluApply := id
    flattenApply := id
    normalizeApply := id }

/-- A concrete rank-3 input tensor. -/
def t0 : TensorD :=
  { shape := [1, 1, 1], data := [0] }

/-- A live fully-connected boxed layer owning weights `[[1]]` and biases
`[0]` (spec section 3: a FullyConnected owns a 2-D weight tensor and a 1-D
bias tensor, and its record carries both). -/
def fcLayerA : Layer :=
  { apply := id, intoJson := .fullyConnected [[1]] [0] }

/-- A live fully-connected boxed layer owning weights `[[2]]` and biases
`[0]`, differing from `fcLayerA` only in its weight tensor. -/
def fcLayerB : Layer :=
  { apply := id, intoJson := .fullyConnected [[2]] [0] }

/-! Helper lemmas shared by the claim theorems. -/

/-- The driver loop is the left-to-right fold of the stored layers. -/
theorem forwardLayers_eq_foldl (ls : List Layer) (x : TensorD) :
    forwardLayers ls x = ls.foldl (fun acc l => l.apply acc) x := by
  induction ls generalizing x with
  | nil => rfl
  | cons l rest ih => simp [forwardLayers, List.foldl, ih]

/-- The factory returns `Ok` of the arm's constructed layer on every record. -/
theorem tryFromLayerJson_eq_ok (impls : LayerImpls) (v : LayerJson) :
    tryFromLayerJson impls v = .ok (buildLayer impls v) := by
  cases v <;> rfl

/-- The fail-fast collection succeeds on every record list, producing the
ordered list of factory-built layers. -/
theorem collectLayers_eq_ok (impls : LayerImpls) (ls : List LayerJson) :
    collectLayers impls ls = .ok (ls.map (buildLayer impls)) := by
  induction ls with
  | nil => rfl
  | cons v rest ih => simp [collectLayers, tryFromLayerJson_eq_ok, ih]

/-! Theorems settling the claims. -/

/-- C1: evaluation at the failing input, a network holding one
fully-connected layer with weights `[[1]]` and biases `[0]`. First, the
persisted record of that network is the bare tag list `[fully_connected]`,
carrying no parameters at all. Second, even rebuilding from the full
per-layer record, the factory returns the default-initialized
fully-connected layer, whose record differs from the original layer's — the
round trip does not reconstruct numerically identical parameters. -/
theorem c1_roundtrip_failing_input :
    nnJsonFromNetwork { layers := [fcLayerA] } = { layers := [Layers.fullyConnected] } ∧
    (tryFromLayerJson idImpls fcLayerA.intoJson).map Layer.intoJson =
      .ok (LayerJson.fullyConnected [] []) ∧
    LayerJson.fullyConnected [] [] ≠ fcLayerA.intoJson :=
  ⟨rfl, rfl, by decide⟩

/-- C2: evaluation at the failing input. The factory's fully-connected arm
discards the record's weights and biases: for every choice of external
kernels, two records carrying different parameters build the identical
layer, so the constructed layer is not built from the record's weight and
bias tensors; concretely, the records with weights `[[1]]`, biases `[0]`
and weights `[[2]]`, biases `[3]` are distinct yet build the same layer. -/
theorem c2_build_ignores_fc_fields :
    (∀ (impls : LayerImpls) (w w2 : Tensor2) (b b2 : Tensor1),
      tryFromLayerJson impls (.fullyConnected w b) =
        tryFromLayerJson impls (.fullyConnected w2 b2)) ∧
    tryFromLayerJson idImpls (.fullyConnected [[1]] [0]) =
      tryFromLayerJson idImpls (.fullyConnected [[2]] [3]) ∧
    LayerJson.fullyConnected [[1]] [0] ≠ LayerJson.fullyConnected [[2]] [3] :=
  ⟨fun _ _ _ _ _ => rfl, rfl, by decide⟩

/-- C3: for every network, input tensor and rank argument `dim ≠ 3`,
`NeuralNetwork::apply` returns the failure result (`None`, the case the
spec's error taxonomy labels UnsupportedRank) and performs zero layer
`apply` invocations. -/
theorem c3_rank_gating (nn : NeuralNetwork) (input : TensorD) (dim : Nat)
    (h : dim ≠ 3) :
    nn.apply input dim = none ∧ nn.applyCount input dim = (none, 0) := by
  constructor <;> simp [NeuralNetwork.apply, NeuralNetwork.applyCount, h]

/-- C3 witness: a concrete one-layer network, a concrete tensor and rank 2. -/
theorem c3_rank_gating_witness :
    (2 : Nat) ≠ 3 ∧
      (NeuralNetwork.mk [fcLayerA]).apply t0 2 = none ∧
      (NeuralNetwork.mk [fcLayerA]).applyCount t0 2 = (none, 0) :=
  ⟨by decide, c3_rank_gating (NeuralNetwork.mk [fcLayerA]) t0 2 (by decide)⟩

/-- C4 counterexample: invoked at rank 2 on a concrete network,
`NeuralNetwork::apply` returns the null result `Option.none` — the failure
is NOT a typed `UnsupportedRank` error value; no such typed error exists in
the code, whose `apply` returns `Option<ArrayD<f32>>`. -/
theorem c4_counterexample :
    (NeuralNetwork.mk [fcLayerA]).apply t0 2 = none := rfl

/-- C4 amended: for every rank other than 3 the failure is returned as
`Option.none` (the absent case of the `Option` result) rather than as a
typed `UnsupportedRank` value; a caller can still distinguish the failure
from every successful output, an empty tensor included, because every
success is wrapped in `some`. -/
theorem c4_failure_is_none (nn : NeuralNetwork) (input : TensorD) (dim : Nat)
    (h : dim ≠ 3) :
    nn.apply input dim = none ∧ ∀ t : TensorD, nn.apply input dim ≠ some t := by
  have hnone : nn.apply input dim = none := by
    simp [NeuralNetwork.apply, h]
  exact ⟨hnone, fun t ht => by simp [hnone] at ht⟩

/-- C4 amended witness: a concrete network, tensor and rank 2. -/
theorem c4_failure_is_none_witness :
    (2 : Nat) ≠ 3 ∧
      ((NeuralNetwork.mk [fcLayerA]).apply t0 2 = none ∧
        ∀ t : TensorD, (NeuralNetwork.mk [fcLayerA]).apply t0 2 ≠ some t) :=
  ⟨by decide, c4_failure_is_none (NeuralNetwork.mk [fcLayerA]) t0 2 (by decide)⟩

/-- C5: for a two-layer network `[L1, L2]` and a rank-3 call, `apply`
returns exactly `L2.apply (L1.apply x)`; in general the rank-3 forward pass
is the sequential left-to-right fold of the stored layers over the input,
layer i's output becoming layer i+1's input. -/
theorem c5_sequential_composition (L1 L2 : Layer) (x : TensorD) :
    (NeuralNetwork.mk [L1, L2]).apply x 3 = some (L2.apply (L1.apply x)) ∧
    ∀ (nn : NeuralNetwork) (y : TensorD),
      nn.apply y 3 = some (nn.layers.foldl (fun acc l => l.apply acc) y) := by
  refine ⟨rfl, fun nn y => ?_⟩
  simp [NeuralNetwork.apply, forwardLayers_eq_foldl]

/-- C6: the empty network applied to any tensor at rank 3 succeeds and
returns that tensor unchanged. -/
theorem c6_empty_network_identity (x : TensorD) :
    NeuralNetwork.new.apply x 3 = some x := rfl

/-- C7: converting a NetworkRecord to a Network maps each record entry
through the layer factory preserving order, collecting the per-entry
results fail-fast: since the factory succeeds on every record of the closed
union, the whole conversion succeeds with exactly the ordered list of
factory-built layers, and the error branch — which aborts the whole
conversion with no partially built network — is never taken. -/
theorem c7_record_to_network (impls : LayerImpls) (r : NNJsonFull) :
    tryFromNNJson impls r = .ok { layers := r.layers.map (buildLayer impls) } := by
  simp [tryFromNNJson, collectLayers_eq_ok]

/-- C8: evaluation at the failing input. Entries of the persisted `NNJson`
are bare `Layers` tags: two networks whose fully-connected layers carry
different weight tensors persist to the identical record, so an entry does
not carry its tag's payload alongside the discriminator (the
payload-carrying union is `LayerJson`, which `NNJson` does not store). -/
theorem c8_record_has_no_payload :
    nnJsonFromNetwork { layers := [fcLayerA] } =
      nnJsonFromNetwork { layers := [fcLayerB] } ∧
    fcLayerA.intoJson ≠ fcLayerB.intoJson :=
  ⟨rfl, by decide⟩

/-- C9: the layer factory is total — on every record of the closed
LayerJson union it returns `Ok` with the corresponding constructed layer;
its error branch is unreachable. -/
theorem c9_factory_total (impls : LayerImpls) (v : LayerJson) :
    ∃ l : Layer, tryFromLayerJson impls v = .ok l :=
  ⟨buildLayer impls v, tryFromLayerJson_eq_ok impls v⟩

/-- C10: `Default::default()` is the empty network `new()` — zero layers —
and `add_layer` appends the given layer at the end, leaving every
previously added layer and their order unchanged. -/
theorem c10_default_and_add_layer :
    NeuralNetwork.default = NeuralNetwork.new ∧
    NeuralNetwork.new.layers.length = 0 ∧
    ∀ (nn : NeuralNetwork) (l : Layer),
      (nn.addLayer l).layers = nn.layers ++ [l] :=
  ⟨rfl, rfl, fun _ _ => rfl⟩

end ProtoNeuralZkp
